import Mathlib

/-!
Shallow embedding of the control flow and arithmetic of `rainyun.py`
(automated sign-in/reward flow: login retry loop, slide-captcha solver,
reward-button discovery, balance scrape), together with theorems settling
the claims of the specification about it.
-/

namespace Rainyun

/-! ### Slide-captcha move-distance arithmetic (rainyun.py lines 176-193)

`target_x` is the offset returned by the OCR slide matcher, in the
natural coordinate space of the background image; `bg_rendered_width` is the
rendered width of the background image.  The source computes
`scale = bg_rendered_width / 340`, `move_distance = target_x * scale`,
subtracts the empirical 30-pixel correction and clamps at 0.
Real arithmetic is modelled with `ℚ`. -/

def move_distance_calc (target_x bg_rendered_width : ℚ) : ℚ :=
  let original_bg_width : ℚ := 340
  let md :=
    if 0 < original_bg_width then
      target_x * (bg_rendered_width / original_bg_width)
    else
      target_x
  let md2 := md - 30
  if md2 < 0 then 0 else md2

/-! ### Drag gesture (rainyun.py lines 197-214)

The drag loop is `for x_offset in range(0, int(move_distance), 10)`,
each iteration moving the pointer 10 pixels right, followed by one move
of `int(move_distance) - (int(move_distance) // 10) * 10` pixels when
that remainder is positive.  `rangeStep` embeds the Python builtin
`range(start, stop, step)` for a positive step; the fuel argument is
`stop`, which bounds the number of elements whenever `1 ≤ step`. -/

def rangeStepAux (step : Nat) : Nat → Nat → Nat → List Nat
  | 0, _, _ => []
  | fuel + 1, start, stop =>
      if start < stop then start :: rangeStepAux step fuel (start + step) stop
      else []

def rangeStep (start stop step : Nat) : List Nat :=
  rangeStepAux step stop start stop

/-- Total horizontal offset applied between press and release for a
truncated move distance `n = int(move_distance)`: 10 pixels per loop
iteration, plus the final remainder move when it is positive. -/
def dragTotal (n : Nat) : Nat :=
  let bulk := 10 * (rangeStep 0 n 10).length
  let remaining := n - (n / 10) * 10
  bulk + (if 0 < remaining then remaining else 0)

/-! ### Balance parsing (rainyun.py line 493)

`int("".join(re.findall(of the digit-run pattern, points_raw)))`: every maximal run of
digits in the text is collected in order, the runs are concatenated and
the result parsed as an integer; `int` of the empty string raises, so a text with no
digits yields no number. -/

def digitRunsAux : List Char → List Char → List (List Char)
  | [], acc => if acc.isEmpty then [] else [acc.reverse]
  | c :: rest, acc =>
      if c.isDigit then digitRunsAux rest (c :: acc)
      else if acc.isEmpty then digitRunsAux rest []
      else acc.reverse :: digitRunsAux rest []

/-- The maximal digit runs of a character list, in order of appearance:
the embedding of `re.findall` with a digits-run pattern. -/
def digitRuns (cs : List Char) : List (List Char) :=
  digitRunsAux cs []

def digitsToNat (cs : List Char) : Nat :=
  cs.foldl (fun acc c => acc * 10 + (c.toNat - Char.toNat '0')) 0

/-- Embedding of the balance parse: concatenate all digit runs of the
element text and convert; `none` models the `ValueError` that `int` of
the empty string raises when the text holds no digit at all. -/
def parsePoints (s : String) : Option Nat :=
  let digits := (digitRuns s.toList).flatten
  if digits.isEmpty then none else some (digitsToNat digits)

/-- The derived currency-equivalent `current_points / 2000`
(rainyun.py line 494). -/
def currencyEquiv (p : Nat) : ℚ :=
  (p : ℚ) / 2000

/-- Two-decimal fixed-point rendering of a nonnegative rational, the
model of the `:.2f` format specifier for values exactly representable
in hundredths (rounding ties never arise for those). -/
def renderTwoDec (q : ℚ) : String :=
  let cents : Nat := (⌊q * 100 + 1 / 2⌋).toNat
  toString (cents / 100) ++ "." ++
    (if cents % 100 < 10 then "0" else "") ++ toString (cents % 100)

/-! ### Captcha stage control flow (rainyun.py lines 115-243)

`process_captcha` switches to the main document, tries to switch into
the captcha iframe (timeout means `return False`), works inside a
`try/except/finally` whose `finally` switches back to the main document,
and on an explicit failure indicator clicks the refresh control and
recursively re-invokes itself.  The browser context is tracked
explicitly; the unbounded recursion is given a fuel argument, and `none`
models the invocation never returning (the `finally` of a frame that
never returns is never observed).  The per-invocation environment is a
function of the recursion depth, so an environment can make the failure
indicator persist after every refresh. -/

inductive Ctx where
  | main
  | iframe
  deriving DecidableEq, Repr

structure CaptchaEnv where
  /-- The captcha iframe became available within the wait timeout
  (line 123); a timeout is the early `return False` at line 126. -/
  iframeAvailable : Bool
  /-- No exception was raised in the body of the `try` at lines 130-214
  (element waits, script eval, OCR, drag); an exception is the handler
  at lines 238-241. -/
  tryBodyOk : Bool
  /-- The failure-indicator text search at line 220 found elements. -/
  failureIndicator : Bool
  /-- The refresh control lookup at line 224 found the element; when it
  does not, `find_element` raises `NoSuchElementException`, which the
  handler at line 234 turns into `return True`. -/
  refreshFound : Bool
  deriving DecidableEq, Repr

/-- Fueled embedding of `process_captcha`: result is `none` when the
recursion consumes all fuel (models divergence), otherwise
`some (returned boolean, browser context at return)`. -/
def processCaptcha : Nat → (Nat → CaptchaEnv) → Nat → Ctx → Option (Bool × Ctx)
  | 0, _, _, _ => none
  | fuel + 1, cenv, depth, _ctx =>
      let e := cenv depth
      -- line 119: switch_to.default_content()
      if !e.iframeAvailable then
        -- line 126: iframe wait timed out, context still the main document
        some (false, Ctx.main)
      else
        -- switched into the iframe by the successful wait at line 123
        if !e.tryBodyOk then
          -- except at line 238 switches to default content, finally again
          some (false, Ctx.main)
        else
          if e.failureIndicator then
            if e.refreshFound then
              -- line 229: `return process_captcha()`; when the recursive
              -- call returns, the `finally` at line 242 restores the
              -- main document context
              match processCaptcha fuel cenv (depth + 1) Ctx.iframe with
              | none => none
              | some (r, _) => some (r, Ctx.main)
            else
              -- NoSuchElementException from line 224, handler at 234
              -- returns True; finally restores main document
              some (true, Ctx.main)
          else
            -- line 233: success; finally restores main document
            some (true, Ctx.main)

/-! ### Login retry loop (rainyun.py lines 317-384)

The loop keeps a single counter `retry_count` shared by the three
failure kinds (URL without the success marker, a `TimeoutException`
from a wait, any other exception); each failure increments it, sleeps
`retry_count * 2` seconds and refreshes the page when the bound of 3 is
not yet reached, and raises an exception out of the loop otherwise.  In
the URL-failure case the `raise` at line 358 is itself caught by the
generic handler at line 368, which increments the counter once more
before re-raising at line 376. -/

inductive AttemptOutcome where
  /-- URL contains the dashboard marker: `login_success = True`. -/
  | success
  /-- The wait returned but the URL lacks the marker (else branch at
  line 342). -/
  | urlFail
  /-- `TimeoutException` from a wait (handler at line 360). -/
  | timeoutErr
  /-- Any other exception during the attempt (handler at line 368). -/
  | otherErr
  deriving DecidableEq, Repr

inductive Ev where
  /-- Start of login attempt `k` (1-indexed, the log at line 335). -/
  | attempt (k : Nat)
  /-- `time.sleep(sec)` backoff. -/
  | sleep (sec : Nat)
  /-- `driver.refresh()`. -/
  | refresh
  deriving DecidableEq, Repr

inductive IterResult where
  /-- `login_success = True`: the while condition ends the loop. -/
  | exitSuccess
  /-- Loop continues with the updated `retry_count`. -/
  | continueWith (rc : Nat)
  /-- An exception escapes the loop. -/
  | raiseOut
  deriving DecidableEq, Repr

/-- One iteration of the login `while` body, entered with `retry_count = rc`
prior failed attempts; returns the loop disposition and the trace of
backoff events of this iteration. -/
def loginIter (o : AttemptOutcome) (rc : Nat) : IterResult × List Ev :=
  match o with
  | .success => (.exitSuccess, [.attempt (rc + 1)])
  | .urlFail =>
      -- line 352: retry_count += 1
      let rc1 := rc + 1
      if rc1 < 3 then
        (.continueWith rc1, [.attempt (rc + 1), .sleep (rc1 * 2), .refresh])
      else
        -- line 358 raises; caught at line 368, retry_count += 1 again
        let rc2 := rc1 + 1
        if rc2 < 3 then
          (.continueWith rc2, [.attempt (rc + 1), .sleep (rc2 * 2), .refresh])
        else
          (.raiseOut, [.attempt (rc + 1)])
  | .timeoutErr =>
      let rc1 := rc + 1
      if rc1 < 3 then
        (.continueWith rc1, [.attempt (rc + 1), .sleep (rc1 * 2), .refresh])
      else
        (.raiseOut, [.attempt (rc + 1)])
  | .otherErr =>
      let rc1 := rc + 1
      if rc1 < 3 then
        (.continueWith rc1, [.attempt (rc + 1), .sleep (rc1 * 2), .refresh])
      else
        (.raiseOut, [.attempt (rc + 1)])

inductive LoginResult where
  /-- Loop ended with `login_success = True`. -/
  | success
  /-- Loop ended by its guard with `login_success = False`
  (line 380 would then send a failure report and exit 1). -/
  | noSuccess
  /-- An exception escaped the loop to the top-level handler. -/
  | raised
  /-- Fuel exhausted (never happens with fuel 3 from `retry_count = 0`). -/
  | fuelOut
  deriving DecidableEq, Repr

/-- The login `while retry_count < max_retries and not login_success`
loop; `oc k` is the outcome of the iteration entered with
`retry_count = k`. -/
def loginLoopAux (oc : Nat → AttemptOutcome) : Nat → Nat → LoginResult × List Ev
  | 0, _ => (.fuelOut, [])
  | fuel + 1, rc =>
      if rc < 3 then
        match loginIter (oc rc) rc with
        | (.exitSuccess, tr) => (.success, tr)
        | (.raiseOut, tr) => (.raised, tr)
        | (.continueWith rc2, tr) =>
            let rest := loginLoopAux oc fuel rc2
            (rest.1, tr ++ rest.2)
      else
        (.noSuccess, [])

def loginRun (oc : Nat → AttemptOutcome) : LoginResult × List Ev :=
  loginLoopAux oc 3 0

/-- Number of login attempts recorded in a trace. -/
def countAttempts (tr : List Ev) : Nat :=
  (tr.filter fun e => match e with | .attempt _ => true | _ => false).length

/-! ### Reward-button discovery (rainyun.py lines 414-481)

A `for attempt in range(3)` loop, each iteration loading the earn page
and trying an ordered list of four locator strategies, taking the first
that yields a clickable element within the wait timeout; the `else` of
the `for` (no `break` in any iteration) sends one partial-failure
notification and control proceeds to the balance scrape. -/

inductive Locator where
  | xpath (s : String)
  | cssSelector (s : String)
  deriving DecidableEq, Repr

/-- The declared strategy list (lines 426-431), in source order. -/
def strategies : List Locator :=
  [ .xpath "//*[@id=\"app\"]/div[1]/div[3]/div[2]/div/div/div[2]/div[2]/div/div/div/div[1]/div/div[1]/div/div[1]/div/span[2]/a",
    .xpath "//a[contains(@href, \"earn\") and contains(text(), \"赚取\")]",
    .cssSelector "a[href*=\"/account/reward/earn\"]",
    .xpath "//a[contains(@class, \"earn-button\")]" ]

/-- The `for by, selector in strategies` loop (lines 433-440):
`clickable i` tells whether strategy `i` yields a clickable element
within the wait timeout; the first success is kept, the rest are never
consulted. -/
def findFirstAux (clickable : Nat → Bool) : Nat → Nat → Option Nat
  | 0, _ => none
  | n + 1, i => if clickable i then some i else findFirstAux clickable n (i + 1)

def findEarnButton (clickable : Nat → Bool) : Option Nat :=
  findFirstAux clickable strategies.length 0

/-! ### Whole-run model (rainyun.py lines 246-535)

The `__main__` flow: credentials check, login loop, post-login captcha,
dashboard check, earn loop with post-reward captcha, balance scrape,
top-level `except Exception` handler and `finally` that releases the
browser. `sys.exit(1)` raises `SystemExit`, which the top-level
`except Exception` does not catch, so it reaches the `finally` and ends
the process with code 1; an ordinary exception caught at line 521 sends
a run-exception notification and falls through to the `finally`, ending
the process with code 0. -/

inductive CaptchaEnc where
  /-- The captcha iframe never appeared within the timeout
  (`TimeoutException` branch): no captcha triggered. -/
  | notTriggered
  /-- `process_captcha()` returned `True`. -/
  | ok
  /-- `process_captcha()` returned `False` (the call site raises). -/
  | fail
  deriving DecidableEq, Repr

inductive BalanceOutcome where
  /-- The balance element was found and its text content read. -/
  | text (s : String)
  /-- The wait for the balance element timed out (handler line 502). -/
  | timeoutErr
  /-- The element was not found (handler line 506). -/
  | notFoundErr
  /-- Any other exception while scraping (handler line 510). -/
  | otherErr
  deriving DecidableEq, Repr

structure Env where
  /-- `RAINYUN_USER` is set and non-empty. -/
  hasUser : Bool
  /-- `RAINYUN_PASS` is set and non-empty. -/
  hasPwd : Bool
  /-- Outcome of the login iteration entered with `retry_count = k`. -/
  login : Nat → AttemptOutcome
  /-- Post-login captcha (lines 389-404). -/
  postLoginCaptcha : CaptchaEnc
  /-- The URL contains the dashboard marker at line 409. -/
  onDashboard : Bool
  /-- An exception was raised while loading the earn page or waiting for
  its body on attempt `a` (handler line 474). -/
  earnPageError : Nat → Bool
  /-- `earnClickable a i` : strategy `i` yields a clickable element
  within the wait timeout on attempt `a`. -/
  earnClickable : Nat → Nat → Bool
  /-- Post-reward captcha (lines 452-466), consulted on the attempt that
  finds and clicks the button. -/
  postRewardCaptcha : CaptchaEnc
  /-- Outcome of the balance scrape (lines 487-513). -/
  balance : BalanceOutcome

structure RunResult where
  exitCode : Nat
  /-- Titles of the notifications sent, in order. -/
  notifs : List String
  /-- The `finally` at line 527 ran `driver.quit()`. -/
  browserReleased : Bool
  deriving DecidableEq, Repr

/-- The `for attempt in range(max_earn_retries)` loop with its `else`
(lines 415-481): returns whether the button was found and clicked, and
the notification titles emitted by the loop.  A post-reward captcha
failure sends a notification at line 465 but execution continues to the
`break` at line 469. -/
def earnLoopAux (env : Env) : Nat → Nat → Bool × List String
  | 0, _ => (false, ["雨云签到部分失败"])
  | fuel + 1, a =>
      if env.earnPageError a then
        -- handler at line 474: log, sleep, next attempt
        earnLoopAux env fuel (a + 1)
      else
        match findEarnButton (env.earnClickable a) with
        | some _ =>
            -- scroll, script click, then the captcha check (lines 442-469)
            (match env.postRewardCaptcha with
             | .fail => (true, ["雨云赚取积分验证码失败"])
             | _ => (true, []))
        | none =>
            -- line 471: refresh and retry
            earnLoopAux env fuel (a + 1)

def earnLoop (env : Env) : Bool × List String :=
  earnLoopAux env 3 0

/-- The balance scrape (lines 486-513): a parsable text sends the
success notification; a text with no digits makes the int conversion raise,
caught by the generic handler at line 510; the element timing out or
missing is caught at lines 502/506 — all failure paths send the
unknown-result notification. -/
def balanceNotif (b : BalanceOutcome) : String :=
  match b with
  | .text s =>
      match parsePoints s with
      | some _ => "雨云签到成功"
      | none => "雨云签到结果未知"
  | .timeoutErr => "雨云签到结果未知"
  | .notFoundErr => "雨云签到结果未知"
  | .otherErr => "雨云签到结果未知"

/-- The whole `__main__` flow, producing the process exit code, the
notification titles in order, and whether the browser was released. -/
def mainRun (env : Env) : RunResult :=
  if !(env.hasUser && env.hasPwd) then
    -- lines 254-259: notification then sys.exit(1) before the driver exists
    ⟨1, ["雨云签到配置错误"], false⟩
  else
    match loginRun env.login with
    | (.raised, _) =>
        -- the exception reaches the handler at line 521, which sends the
        -- run-exception notification and does not exit; the finally
        -- releases the browser and the process ends with code 0
        ⟨0, ["雨云脚本运行异常"], true⟩
    | (.fuelOut, _) =>
        ⟨0, ["雨云脚本运行异常"], true⟩
    | (.noSuccess, _) =>
        -- lines 380-384: failure notification and sys.exit(1)
        ⟨1, ["雨云签到失败"], true⟩
    | (.success, _) =>
        match env.postLoginCaptcha with
        | .fail =>
            -- lines 400-404: notification then sys.exit(1)
            ⟨1, ["雨云登录验证码失败"], true⟩
        | _ =>
            if env.onDashboard then
              let er := earnLoop env
              ⟨0, er.2 ++ [balanceNotif env.balance], true⟩
            else
              -- lines 515-519: notification, no exit; process ends with 0
              ⟨0, ["雨云签到失败"], true⟩

/-! ### Concrete environments used to evaluate the models -/

/-- A captcha environment in which the failure indicator persists after
every refresh and the refresh control is always present. -/
def persistEnv : CaptchaEnv :=
  ⟨true, true, true, true⟩

/-- A captcha environment whose iframe never becomes available. -/
def noIframeEnv : CaptchaEnv :=
  ⟨false, true, false, false⟩

/-- A run in which every login attempt times out. -/
def envLoginFail : Env :=
  ⟨true, true, fun _ => .timeoutErr, .notTriggered, false,
   fun _ => false, fun _ _ => false, .notTriggered, .otherErr⟩

/-- A run with missing credentials. -/
def envNoCreds : Env :=
  { envLoginFail with hasUser := false }

/-- A run in which login succeeds and the post-login captcha fails. -/
def envCaptchaFatal : Env :=
  { envLoginFail with login := fun _ => .success, postLoginCaptcha := .fail }

/-- A fully successful run: login on the first attempt, no post-login
captcha, earn button found by every strategy on the first page load, no
post-reward captcha, parsable balance text. -/
def envHappy : Env :=
  ⟨true, true, fun _ => .success, .notTriggered, true,
   fun _ => false, fun _ _ => true, .notTriggered, .text "积分: 4000 点"⟩

/-- Like `envHappy` but the post-reward captcha fails. -/
def envRewardFail : Env :=
  { envHappy with postRewardCaptcha := .fail }

/-- Like `envHappy` but no locator strategy ever succeeds. -/
def envEarnAllFail : Env :=
  { envHappy with earnClickable := fun _ _ => false, balance := .otherErr }

/-- Like `envHappy` but the balance element text holds no digit. -/
def envNoDigits : Env :=
  { envHappy with balance := .text "积分获取异常" }

/-- A clickability assignment whose first succeeding strategy is the
third of the list (index 2). -/
def thirdOnly : Nat → Bool :=
  fun i => decide (2 ≤ i)

/-! ### Helper lemmas -/

theorem digitRunsAux_flatten (cs : List Char) :
    ∀ acc : List Char,
      (digitRunsAux cs acc).flatten = acc.reverse ++ cs.filter Char.isDigit := by
  induction cs with
  | nil =>
      intro acc
      cases h : acc.isEmpty
      · simp [digitRunsAux, h]
      · simp [digitRunsAux, h, List.isEmpty_iff.mp h]
  | cons c rest ih =>
      intro acc
      cases hd : c.isDigit
      · cases ha : acc.isEmpty
        · simp [digitRunsAux, hd, ha, ih, List.filter_cons]
        · simp [digitRunsAux, hd, ha, List.isEmpty_iff.mp ha, ih, List.filter_cons]
      · simp [digitRunsAux, hd, ih, List.filter_cons]

/-- Claim C1: for every OCR-returned offset `t` and every rendered
background width `w > 0`, with the natural width fixed at 340, the
computed rendered-space move distance equals `max (t * w / 340 - 30) 0`;
in particular offset 100 with width 340 yields 70, and offset 10 with
width 680 yields 0. -/
theorem claim_C1 :
    (∀ t w : ℚ, 0 < w → move_distance_calc t w = max (t * w / 340 - 30) 0) ∧
    move_distance_calc 100 340 = 70 ∧ move_distance_calc 10 680 = 0 := by
  refine ⟨?_, by norm_num [move_distance_calc], by norm_num [move_distance_calc]⟩
  intro t w _hw
  have h340 : (0 : ℚ) < 340 := by norm_num
  simp only [move_distance_calc, if_pos h340, ← mul_div_assoc]
  rcases lt_or_le (t * w / 340 - 30) 0 with h | h
  · rw [if_pos h, max_eq_right h.le]
  · rw [if_neg (not_lt.mpr h), max_eq_left h]

/-- Witness for claim C1 at offset 100, width 340. -/
theorem claim_C1_witness :
    (0 : ℚ) < 340 ∧
      move_distance_calc 100 340 = max ((100 : ℚ) * 340 / 340 - 30) 0 :=
  ⟨by norm_num, claim_C1.1 100 340 (by norm_num)⟩

/-- Claim C8: the balance text "积分: 4000 点" parses to 4000 points,
the currency-equivalent `points / 2000` is 2 and renders as "2.00" with
two decimal places, and a balance of 6000 renders as "3.00". -/
theorem claim_C8 :
    parsePoints "积分: 4000 点" = some 4000 ∧
    currencyEquiv 4000 = 2 ∧
    renderTwoDec (currencyEquiv 4000) = "2.00" ∧
    renderTwoDec (currencyEquiv 6000) = "3.00" := by
  refine ⟨by decide, by norm_num [currencyEquiv], ?_, ?_⟩
  · have h1 : ⌊currencyEquiv 4000 * 100 + 1 / 2⌋ = 200 := by
      norm_num [currencyEquiv]
    simp only [renderTwoDec, h1]
    rfl
  · have h1 : ⌊currencyEquiv 6000 * 100 + 1 / 2⌋ = 300 := by
      norm_num [currencyEquiv]
    simp only [renderTwoDec, h1]
    rfl

/-- Claim C9 evaluated at the failing input: for a computed move
distance of 25 the drag applies 35 pixels in total (three 10-pixel
increments from `range(0, 25, 10)` plus the 5-pixel remainder), not the
25 the claim states; a multiple of 10 such as 20 is applied exactly. -/
theorem claim_C9 :
    dragTotal 25 = 35 ∧ dragTotal 25 ≠ 25 ∧ dragTotal 20 = 20 ∧
    dragTotal 5 = 15 := by
  decide

/-- Claim C3: when the failure indicator persists after every refresh
(and the refresh control is always present), the captcha stage
re-invokes itself recursively with no retry limit and never terminates
with a result: for every fuel bound the fueled embedding returns
`none`. -/
theorem claim_C3 (cenv : Nat → CaptchaEnv)
    (hpersist : ∀ k, (cenv k).iframeAvailable = true ∧ (cenv k).tryBodyOk = true ∧
      (cenv k).failureIndicator = true ∧ (cenv k).refreshFound = true) :
    ∀ fuel depth ctx, processCaptcha fuel cenv depth ctx = none := by
  intro fuel
  induction fuel with
  | zero => intro _ _; rfl
  | succ n ih =>
      intro depth ctx
      obtain ⟨h1, h2, h3, h4⟩ := hpersist depth
      simp [processCaptcha, h1, h2, h3, h4, ih (depth + 1) Ctx.iframe]

/-- Witness for claim C3 at the persistent-failure environment with
fuel 5. -/
theorem claim_C3_witness :
    processCaptcha 5 (fun _ => persistEnv) 0 Ctx.main = none :=
  claim_C3 (fun _ => persistEnv) (fun _ => ⟨rfl, rfl, rfl, rfl⟩) 5 0 Ctx.main

/-- Claim C4: whenever the captcha stage returns a result — success,
explicit verification failure, or an exception raised while inside the
iframe — the browser context is the main document at the point of
return. -/
theorem claim_C4 :
    ∀ (fuel : Nat) (cenv : Nat → CaptchaEnv) (depth : Nat) (ctx : Ctx)
      (r : Bool) (ctx2 : Ctx),
      processCaptcha fuel cenv depth ctx = some (r, ctx2) → ctx2 = Ctx.main := by
  intro fuel
  induction fuel with
  | zero =>
      intro cenv depth ctx r ctx2 h
      exact absurd h (by simp [processCaptcha])
  | succ n ih =>
      intro cenv depth ctx r ctx2 h
      cases h1 : (cenv depth).iframeAvailable <;>
        cases h2 : (cenv depth).tryBodyOk <;>
        cases h3 : (cenv depth).failureIndicator <;>
        cases h4 : (cenv depth).refreshFound <;>
        simp [processCaptcha, h1, h2, h3, h4] at h <;>
        try exact h.2.symm
      all_goals {
    cases hrec : processCaptcha n cenv (depth + 1) Ctx.iframe with
    | none => rw [hrec] at h; exact absurd h (by simp)
    | some p => rw [hrec] at h; simp at h; exact h.2.symm }

/-- Witness for claim C4: at an environment whose iframe never appears,
the stage returns failure with the context at the main document. -/
theorem claim_C4_witness :
    processCaptcha 1 (fun _ => noIframeEnv) 0 Ctx.iframe = some (false, Ctx.main) ∧
      Ctx.main = Ctx.main :=
  ⟨by decide,
   claim_C4 1 (fun _ => noIframeEnv) 0 Ctx.iframe false Ctx.main (by decide)⟩

theorem countAttempts_append (a b : List Ev) :
    countAttempts (a ++ b) = countAttempts a + countAttempts b := by
  simp [countAttempts, List.filter_append]

theorem loginIter_count (o : AttemptOutcome) (rc : Nat) :
    countAttempts (loginIter o rc).2 = 1 := by
  cases o <;> simp only [loginIter] <;> (try split_ifs) <;>
    simp [countAttempts, List.filter]

theorem loginIter_continue_gt (o : AttemptOutcome) (rc rc2 : Nat)
    (tr : List Ev) (h : loginIter o rc = (.continueWith rc2, tr)) : rc < rc2 := by
  cases o <;> simp only [loginIter] at h <;> (try split_ifs at h) <;>
    simp_all <;> omega

theorem loginLoop_bound (oc : Nat → AttemptOutcome) :
    ∀ fuel rc, countAttempts (loginLoopAux oc fuel rc).2 ≤ 3 - rc := by
  intro fuel
  induction fuel with
  | zero => intro rc; simp [loginLoopAux, countAttempts]
  | succ n ih =>
      intro rc
      by_cases hrc : rc < 3
      · rcases hIter : loginIter (oc rc) rc with ⟨res, tr⟩
        have h1 : countAttempts tr = 1 := by
          have := loginIter_count (oc rc) rc
          rw [hIter] at this
          simpa using this
        cases res with
        | exitSuccess =>
            simp only [loginLoopAux, if_pos hrc, hIter]
            omega
        | raiseOut =>
            simp only [loginLoopAux, if_pos hrc, hIter]
            omega
        | continueWith rc2 =>
            have h2 := loginIter_continue_gt (oc rc) rc rc2 tr hIter
            have h3 := ih rc2
            simp only [loginLoopAux, if_pos hrc, hIter, countAttempts_append]
            omega
      · simp [loginLoopAux, if_neg hrc, countAttempts]

/-- Claim C5: the login stage never makes more than 3 attempts (from
`retry_count = rc` the trace records at most `3 - rc` attempts, hence at
most 3 from the start, for any fuel); and after a failed attempt `k` of
any of the three failure kinds, while the bound is not reached, the same
shared counter becomes `k`, the stage sleeps `k * 2` seconds and
reloads the page. -/
theorem claim_C5 :
    (∀ (oc : Nat → AttemptOutcome) (fuel rc : Nat),
        countAttempts (loginLoopAux oc fuel rc).2 ≤ 3 - rc) ∧
    (∀ (o : AttemptOutcome) (rc : Nat), o ≠ .success → rc + 1 < 3 →
        loginIter o rc =
          (.continueWith (rc + 1),
            [.attempt (rc + 1), .sleep ((rc + 1) * 2), .refresh])) := by
  constructor
  · intro oc fuel rc
    exact loginLoop_bound oc fuel rc
  · intro o rc ho hrc
    cases o with
    | success => exact absurd rfl ho
    | urlFail => simp [loginIter, if_pos hrc]
    | timeoutErr => simp [loginIter, if_pos hrc]
    | otherErr => simp [loginIter, if_pos hrc]

/-- Witness for claim C5: the three-timeout run records exactly 3
attempts (within the bound), and a first-attempt URL failure sleeps 2
seconds and refreshes. -/
theorem claim_C5_witness :
    countAttempts (loginLoopAux (fun _ => .timeoutErr) 3 0).2 ≤ 3 - 0 ∧
      loginIter .urlFail 0 =
        (.continueWith 1, [.attempt 1, .sleep 2, .refresh]) :=
  ⟨claim_C5.1 (fun _ => .timeoutErr) 3 0,
   claim_C5.2 .urlFail 0 (by decide) (by decide)⟩

/-- Claim C2 evaluated on the code: when every login attempt fails (all
3 attempts), the final `raise` escapes the retry loop to the top-level
`except Exception` handler, which sends the run-exception notification
and does not exit, so the process ends with exit code 0 — not the
claimed exit code 1; the browser is released.  The remaining parts of
the claim do hold: missing credentials exit 1, a post-login captcha
failure exits 1, and reaching the end of the flow exits 0. -/
theorem claim_C2 :
    mainRun envLoginFail = ⟨0, ["雨云脚本运行异常"], true⟩ ∧
    (mainRun envLoginFail).exitCode ≠ 1 ∧
    mainRun envNoCreds = ⟨1, ["雨云签到配置错误"], false⟩ ∧
    mainRun envCaptchaFatal = ⟨1, ["雨云登录验证码失败"], true⟩ ∧
    mainRun envHappy = ⟨0, ["雨云签到成功"], true⟩ := by
  refine ⟨?_, ?_, ?_, ?_, ?_⟩ <;> decide

/-- One step of the earn loop is skipped (moving to the next attempt)
when the page load raised or no locator strategy succeeded. -/
theorem earnLoopAux_skip (env : Env) (fuel a : Nat)
    (h : env.earnPageError a = true ∨ findEarnButton (env.earnClickable a) = none) :
    earnLoopAux env (fuel + 1) a = earnLoopAux env fuel (a + 1) := by
  rcases h with h | h
  · simp [earnLoopAux, h]
  · cases hpe : env.earnPageError a
    · simp [earnLoopAux, hpe, h]
    · simp [earnLoopAux, hpe]

/-- When the earn loop reports the button clicked and the post-reward
captcha failed, the captcha-failure notification is among the
notifications of the loop. -/
theorem earnLoopAux_fail_mem (env : Env) (hc : env.postRewardCaptcha = .fail) :
    ∀ fuel a, (earnLoopAux env fuel a).1 = true →
      "雨云赚取积分验证码失败" ∈ (earnLoopAux env fuel a).2 := by
  intro fuel
  induction fuel with
  | zero => intro a h; simp [earnLoopAux] at h
  | succ n ih =>
      intro a h
      cases hpe : env.earnPageError a
      · cases hfb : findEarnButton (env.earnClickable a) with
        | none =>
            rw [earnLoopAux_skip env n a (Or.inr hfb)] at h ⊢
            exact ih (a + 1) h
        | some i =>
            simp [earnLoopAux, hpe, hfb, hc]
      · rw [earnLoopAux_skip env n a (Or.inl hpe)] at h ⊢
        exact ih (a + 1) h

/-- The balance scrape notification is always one of the two balance
titles. -/
theorem balanceNotif_cases (b : BalanceOutcome) :
    balanceNotif b = "雨云签到成功" ∨ balanceNotif b = "雨云签到结果未知" := by
  cases b with
  | text s =>
      cases h : parsePoints s
      · right; simp [balanceNotif, h]
      · left; simp [balanceNotif, h]
  | timeoutErr => right; rfl
  | notFoundErr => right; rfl
  | otherErr => right; rfl

/-- Claim C7: a post-reward captcha failure sends a notification but
does not abort the run — the exit code is 0 and the balance scrape
notification is still emitted — whereas a post-login captcha failure
sends a notification and the process exits with code 1. -/
theorem claim_C7 :
    (∀ env : Env, env.hasUser = true → env.hasPwd = true →
        (loginRun env.login).1 = .success →
        env.postLoginCaptcha = .fail →
        (mainRun env).exitCode = 1 ∧
          (mainRun env).notifs = ["雨云登录验证码失败"]) ∧
    (∀ env : Env, env.hasUser = true → env.hasPwd = true →
        (loginRun env.login).1 = .success →
        env.postLoginCaptcha ≠ .fail →
        env.onDashboard = true →
        (earnLoop env).1 = true →
        env.postRewardCaptcha = .fail →
        (mainRun env).exitCode = 0 ∧
          "雨云赚取积分验证码失败" ∈ (mainRun env).notifs ∧
          balanceNotif env.balance ∈ (mainRun env).notifs) := by
  constructor
  · intro env hu hp hl hc
    rcases hlr : loginRun env.login with ⟨res, tr⟩
    rw [hlr] at hl
    simp at hl
    subst hl
    simp [mainRun, hu, hp, hlr, hc]
  · intro env hu hp hl hc hd hf hrc
    rcases hlr : loginRun env.login with ⟨res, tr⟩
    rw [hlr] at hl
    simp at hl
    subst hl
    have hmem := earnLoopAux_fail_mem env hrc 3 0 hf
    cases hcc : env.postLoginCaptcha with
    | fail => exact absurd hcc hc
    | notTriggered =>
        simp only [mainRun, hu, hp, hlr, hcc, hd, Bool.and_self, Bool.not_true,
          Bool.false_eq_true, if_false, if_true]
        refine ⟨trivial, ?_, ?_⟩
        · exact List.mem_append_left _ hmem
        · exact List.mem_append_right _ (List.mem_singleton.mpr rfl)
    | ok =>
        simp only [mainRun, hu, hp, hlr, hcc, hd, Bool.and_self, Bool.not_true,
          Bool.false_eq_true, if_false, if_true]
        refine ⟨trivial, ?_, ?_⟩
        · exact List.mem_append_left _ hmem
        · exact List.mem_append_right _ (List.mem_singleton.mpr rfl)

/-- Witness for claim C7 at the concrete fatal and non-fatal
environments. -/
theorem claim_C7_witness :
    ((mainRun envCaptchaFatal).exitCode = 1 ∧
      (mainRun envCaptchaFatal).notifs = ["雨云登录验证码失败"]) ∧
    ((mainRun envRewardFail).exitCode = 0 ∧
      "雨云赚取积分验证码失败" ∈ (mainRun envRewardFail).notifs ∧
      balanceNotif envRewardFail.balance ∈ (mainRun envRewardFail).notifs) :=
  ⟨claim_C7.1 envCaptchaFatal rfl rfl (by decide) rfl,
   claim_C7.2 envRewardFail rfl rfl (by decide) (by decide) rfl (by decide) rfl⟩

/-- The strategy scan returns the first index whose locator yields a
clickable element: the returned index is in range, succeeds, and every
earlier index in the scanned segment fails. -/
theorem findFirstAux_spec (c : Nat → Bool) :
    ∀ (n i j : Nat), findFirstAux c n i = some j →
      i ≤ j ∧ j < i + n ∧ c j = true ∧ ∀ k, i ≤ k → k < j → c k = false := by
  intro n
  induction n with
  | zero => intro i j h; simp [findFirstAux] at h
  | succ m ih =>
      intro i j h
      by_cases hc : c i
      · simp [findFirstAux, hc] at h
        subst h
        exact ⟨le_refl i, by omega, hc, fun k hk1 hk2 => absurd hk1 (by omega)⟩
      · simp [findFirstAux, hc] at h
        obtain ⟨h1, h2, h3, h4⟩ := ih (i + 1) j h
        refine ⟨by omega, by omega, h3, ?_⟩
        intro k hk1 hk2
        by_cases hki : k = i
        · subst hki
          simpa using hc
        · exact h4 k (by omega) hk2

/-- When every page-load attempt fails to produce the button, the earn
loop ends in its `else` clause with exactly the partial-failure
notification. -/
theorem earnLoop_allfail (env : Env)
    (h : ∀ a, a < 3 → env.earnPageError a = true ∨
      findEarnButton (env.earnClickable a) = none) :
    earnLoop env = (false, ["雨云签到部分失败"]) := by
  rw [earnLoop,
    earnLoopAux_skip env 2 0 (h 0 (by omega)),
    earnLoopAux_skip env 1 1 (h 1 (by omega)),
    earnLoopAux_skip env 0 2 (h 2 (by omega))]
  rfl

/-- Claim C6: reward-button discovery evaluates the locator strategies
strictly in list order and stops at the first that yields a clickable
element; and when no strategy succeeds on any of the 3 page-load
attempts, exactly one partial-failure notification is sent and the run
proceeds to the balance scrape (its notification is still emitted and
the process exits 0). -/
theorem claim_C6 :
    (∀ (c : Nat → Bool) (i : Nat), findEarnButton c = some i →
        i < strategies.length ∧ c i = true ∧ ∀ j, j < i → c j = false) ∧
    (∀ env : Env, env.hasUser = true → env.hasPwd = true →
        (loginRun env.login).1 = .success →
        env.postLoginCaptcha ≠ .fail →
        env.onDashboard = true →
        (∀ a, a < 3 → env.earnPageError a = true ∨
          findEarnButton (env.earnClickable a) = none) →
        ((mainRun env).notifs.filter (fun s => s = "雨云签到部分失败")).length = 1 ∧
          (mainRun env).exitCode = 0 ∧
          balanceNotif env.balance ∈ (mainRun env).notifs) := by
  constructor
  · intro c i h
    obtain ⟨h1, h2, h3, h4⟩ := findFirstAux_spec c strategies.length 0 i h
    exact ⟨by omega, h3, fun j hj => h4 j (by omega) hj⟩
  · intro env hu hp hl hc hd hall
    rcases hlr : loginRun env.login with ⟨res, tr⟩
    rw [hlr] at hl
    simp at hl
    subst hl
    have hearn := earnLoop_allfail env hall
    have hnmain : (mainRun env).notifs =
        ["雨云签到部分失败", balanceNotif env.balance] ∧ (mainRun env).exitCode = 0 := by
      cases hcc : env.postLoginCaptcha with
      | fail => exact absurd hcc hc
      | notTriggered =>
          constructor <;>
            simp [mainRun, hu, hp, hlr, hcc, hd, hearn]
      | ok =>
          constructor <;>
            simp [mainRun, hu, hp, hlr, hcc, hd, hearn]
    refine ⟨?_, hnmain.2, ?_⟩
    · rw [hnmain.1]
      rcases balanceNotif_cases env.balance with hb | hb <;>
        simp [List.filter, hb]
    · rw [hnmain.1]
      exact List.mem_cons_of_mem _ (List.mem_singleton.mpr rfl)

/-- Witness for claim C6: the third strategy is the first to succeed
for `thirdOnly`, and the all-fail run sends the partial-failure
notification exactly once and exits 0. -/
theorem claim_C6_witness :
    ((thirdOnly 2 = true ∧ thirdOnly 1 = false) ∧
      ((mainRun envEarnAllFail).notifs.filter
        (fun s => s = "雨云签到部分失败")).length = 1 ∧
      (mainRun envEarnAllFail).exitCode = 0) :=
  ⟨⟨(claim_C6.1 thirdOnly 2 (by decide)).2.1,
    (claim_C6.1 thirdOnly 2 (by decide)).2.2 1 (by decide)⟩,
   (claim_C6.2 envEarnAllFail rfl rfl (by decide) (by decide) rfl
      (fun a _ => Or.inr rfl)).1,
   (claim_C6.2 envEarnAllFail rfl rfl (by decide) (by decide) rfl
      (fun a _ => Or.inr rfl)).2.1⟩

/-- Every run either ends with exit code 0, or its notification list is
exactly one of the three fatal singletons (configuration error, login
failure, post-login captcha failure). -/
theorem mainRun_fatal_notifs (env : Env) :
    (mainRun env).exitCode = 0 ∨
      (mainRun env).notifs = ["雨云签到配置错误"] ∨
      (mainRun env).notifs = ["雨云签到失败"] ∨
      (mainRun env).notifs = ["雨云登录验证码失败"] := by
  unfold mainRun
  cases h1 : (env.hasUser && env.hasPwd)
  · simp [h1]
  · rcases hlr : loginRun env.login with ⟨res, tr⟩
    cases res with
    | raised => simp [h1, hlr]
    | fuelOut => simp [h1, hlr]
    | noSuccess => simp [h1, hlr]
    | success =>
        cases hcc : env.postLoginCaptcha with
        | fail => simp [h1, hlr, hcc]
        | notTriggered => cases hd : env.onDashboard <;> simp [h1, hlr, hcc, hd]
        | ok => cases hd : env.onDashboard <;> simp [h1, hlr, hcc, hd]

/-- Claim C10: the balance parser concatenates every maximal digit run
of the text in order (equivalently, keeps exactly the digit characters
in order) before converting — so "1,234" parses to 1234 and a text with
several separate numbers parses to their concatenation; a text with no
digits parses to nothing (the conversion raises), and the unknown-result
notification that failure is downgraded to only ever occurs in runs
that exit 0, never in a fatal exit. -/
theorem claim_C10 :
    (∀ cs : List Char, (digitRuns cs).flatten = cs.filter Char.isDigit) ∧
    parsePoints "1,234" = some 1234 ∧
    parsePoints "第12话 共34集" = some 1234 ∧
    (∀ s : String, s.toList.filter Char.isDigit = [] → parsePoints s = none) ∧
    (∀ s : String, parsePoints s = none →
        balanceNotif (.text s) = "雨云签到结果未知") ∧
    (∀ env : Env, "雨云签到结果未知" ∈ (mainRun env).notifs →
        (mainRun env).exitCode = 0) := by
  have hflat : ∀ cs : List Char, (digitRuns cs).flatten = cs.filter Char.isDigit := by
    intro cs
    simpa using digitRunsAux_flatten cs []
  refine ⟨hflat, by decide, by decide, ?_, ?_, ?_⟩
  · intro s h
    have h2 : (digitRuns s.toList).flatten = [] := by rw [hflat, h]
    show (if ((digitRuns s.toList).flatten).isEmpty then none
          else some (digitsToNat ((digitRuns s.toList).flatten))) = none
    rw [h2]
    rfl
  · intro s h
    simp [balanceNotif, h]
  · intro env h
    rcases mainRun_fatal_notifs env with h0 | hn | hn | hn
    · exact h0
    · rw [hn] at h
      exact absurd (List.mem_singleton.mp h) (by decide)
    · rw [hn] at h
      exact absurd (List.mem_singleton.mp h) (by decide)
    · rw [hn] at h
      exact absurd (List.mem_singleton.mp h) (by decide)

/-- Witness for claim C10: digit-run concatenation on a concrete text,
the no-digit text parsing to nothing, and the unknown-result run
exiting 0. -/
theorem claim_C10_witness :
    (digitRuns ",12a34".toList).flatten = ",12a34".toList.filter Char.isDigit ∧
    ("积分获取异常".toList.filter Char.isDigit = [] ∧
      parsePoints "积分获取异常" = none) ∧
    ("雨云签到结果未知" ∈ (mainRun envNoDigits).notifs ∧
      (mainRun envNoDigits).exitCode = 0) :=
  ⟨claim_C10.1 ",12a34".toList,
   ⟨by decide, claim_C10.2.2.2.1 "积分获取异常" (by decide)⟩,
   ⟨by decide, claim_C10.2.2.2.2.2 envNoDigits (by decide)⟩⟩

end Rainyun
